import Mathlib

/-!
Shallow embedding of `blender-exporter-colmap` (`src/__init__.py`),
centred on `BlenderExporterForColmap.export_dataset`.

Modelling choices:
* Blender/Python floats become `ℚ` (the exporter only does exact
  field arithmetic: `*`, `/`, negation).
* Strings keep their Python meaning; the two string operations the code
  uses (`str.startswith`, lexicographic comparison of the sort key
  inside `sorted`) are modelled on the underlying character lists,
  which is Python's code-point ordering.
* Filesystem, rendering and generator `yield`s are modelled as an
  explicit trace of `Effect`s, in the order the code performs them.
* `mathutils.Quaternion((a, b, c, d))` is scalar-first: `w = a`,
  `x = b`, `y = c`, `z = d`; `to_matrix` is the standard rotation
  matrix of a unit quaternion (Blender's `quat_to_mat3`).
-/

namespace BlenderColmap

/-- Scalar-first quaternion, as `mathutils.Quaternion` exposes it. -/
structure BQuat where
  w : ℚ
  x : ℚ
  y : ℚ
  z : ℚ
deriving DecidableEq

/-- 3-vector, as `mathutils.Vector`. -/
structure Vec3 where
  x : ℚ
  y : ℚ
  z : ℚ
deriving DecidableEq

/-- Row-major 3x3 matrix. -/
structure Mat3 where
  m00 : ℚ
  m01 : ℚ
  m02 : ℚ
  m10 : ℚ
  m11 : ℚ
  m12 : ℚ
  m20 : ℚ
  m21 : ℚ
  m22 : ℚ
deriving DecidableEq

/-- `mathutils.Quaternion.to_matrix()` (Blender's `quat_to_mat3`):
the standard rotation matrix of the unit quaternion `(w, x, y, z)`. -/
def quatToMat (q : BQuat) : Mat3 :=
  { m00 := 1 - 2 * (q.y * q.y + q.z * q.z)
    m01 := 2 * (q.x * q.y - q.w * q.z)
    m02 := 2 * (q.x * q.z + q.w * q.y)
    m10 := 2 * (q.x * q.y + q.w * q.z)
    m11 := 1 - 2 * (q.x * q.x + q.z * q.z)
    m12 := 2 * (q.y * q.z - q.w * q.x)
    m20 := 2 * (q.x * q.z - q.w * q.y)
    m21 := 2 * (q.y * q.z + q.w * q.x)
    m22 := 1 - 2 * (q.x * q.x + q.y * q.y) }

/-- Matrix-vector product `M @ v`. -/
def matVecMul (m : Mat3) (v : Vec3) : Vec3 :=
  { x := m.m00 * v.x + m.m01 * v.y + m.m02 * v.z
    y := m.m10 * v.x + m.m11 * v.y + m.m12 * v.z
    z := m.m20 * v.x + m.m21 * v.y + m.m22 * v.z }

/-- Vector negation `-v`. -/
def vecNeg (v : Vec3) : Vec3 :=
  { x := -v.x, y := -v.y, z := -v.z }

/-- The lens/sensor block of a Blender camera datablock (`cam.data`). -/
structure CameraData where
  lens : ℚ
  sensor_width : ℚ
  sensor_height : ℚ
deriving DecidableEq

/-- A Blender scene object, restricted to the fields `export_dataset`
reads or writes.  `users_collection` is the list of names of the
collections the object belongs to. -/
structure SceneObject where
  type : String
  name_full : String
  users_collection : List String
  rotation_mode : String
  rotation_quaternion : BQuat
  location : Vec3
  data : CameraData
deriving DecidableEq

/-- `scene.render`, restricted to the fields the code reads. -/
structure RenderSettings where
  resolution_x : ℕ
  resolution_y : ℕ
  resolution_percentage : ℚ
deriving DecidableEq

/-- A Blender scene, restricted to the fields the code reads. -/
structure Scene where
  objects : List SceneObject
  render : RenderSettings
deriving DecidableEq

/-- COLMAP `Camera` record, as constructed by the exporter. -/
structure Camera where
  id : ℕ
  model : String
  width : ℕ
  height : ℕ
  params : List ℚ
deriving DecidableEq

/-- COLMAP `Image` record, as constructed by the exporter. -/
structure Image where
  id : ℕ
  qvec : List ℚ
  tvec : List ℚ
  camera_id : ℕ
  name : String
  xys : List (ℚ × ℚ)
  point3D_ids : List ℤ
deriving DecidableEq

/-- COLMAP `Point3D` record (the exporter only ever passes an empty
collection of these to `write_model`). -/
structure Point3D where
  id : ℕ
  xyz : Vec3
deriving DecidableEq

/-- One observable step of `export_dataset`: filesystem calls, render
calls, the final `write_model` call, and the generator's `yield`s. -/
inductive Effect where
  | mkdir (path : List String) (parents : Bool) (exist_ok : Bool)
  | setSceneCamera (name : String)
  | renderFrame
  | saveRender (path : List String)
  | writeModel (cameras : List (ℕ × Camera)) (images : List (ℕ × Image))
      (points3D : List Point3D) (path : List String) (ext : String)
  | yieldProgress (value : ℚ)
deriving DecidableEq

/-- `str.startswith(pre)`, on the underlying character lists
(Python compares code points, as `List.isPrefixOf` does here). -/
def strStartsWith (s pre : String) : Bool :=
  pre.data.isPrefixOf s.data

/-- The camera filter of lines 48-55: objects of type `"CAMERA"` that
belong to at least one collection whose name starts with `"colmap_"`
(the inner `for`/`break` appends each matching camera once). -/
def selectedCameras (scene : Scene) : List SceneObject :=
  scene.objects.filter fun obj =>
    obj.type == "CAMERA" &&
      obj.users_collection.any (fun c => strStartsWith c "colmap_")

/-- The sort key of line 72: `x.name_full + ".jpg"`. -/
def sortKey (c : SceneObject) : String :=
  c.name_full ++ ".jpg"

/-- The comparison `sorted` uses: lexicographic code-point order of the
sort keys. -/
def camLE (a b : SceneObject) : Prop :=
  (sortKey a).data ≤ (sortKey b).data

instance : DecidableRel camLE := fun a b =>
  inferInstanceAs (Decidable ((sortKey a).data ≤ (sortKey b).data))

instance : IsTotal SceneObject camLE :=
  ⟨fun a b => le_total (sortKey a).data (sortKey b).data⟩

instance : IsTrans SceneObject camLE :=
  ⟨fun _ _ _ hab hbc => le_trans hab hbc⟩

/-- `sorted(scene_cameras, key=lambda x: x.name_full + ".jpg")`. -/
def sortCameras (l : List SceneObject) : List SceneObject :=
  List.insertionSort camLE l

/-- Result of one iteration of the camera loop (lines 72-122): the
camera object's state after the iteration, and the `Camera` and
`Image` records stored under key `idx + 1`. -/
structure CamStep where
  objAfter : SceneObject
  camera : Camera
  image : Image
deriving DecidableEq

/-- Body of the loop of lines 72-122 for the camera at position `idx`
of the sorted list (pure part: record construction and the
rotation-mode save/switch/restore). -/
def processCamera (render : RenderSettings) (idx : ℕ) (cam : SceneObject) :
    CamStep :=
  let camera_id := idx + 1
  let filename := cam.name_full ++ ".jpg"
  let width := render.resolution_x
  let height := render.resolution_y
  let focal_length := cam.data.lens
  let sensor_width := cam.data.sensor_width
  let sensor_height := cam.data.sensor_height
  let fx := focal_length * width / sensor_width
  let fy := focal_length * height / sensor_height
  let params : List ℚ := [fx, fy, (width : ℚ) / 2, (height : ℚ) / 2, 0, 0, 0, 0]
  let cameraRec : Camera :=
    { id := camera_id, model := "OPENCV", width := width, height := height
      params := params }
  let image_id := camera_id
  let rotation_mode_bk := cam.rotation_mode
  let cam1 := { cam with rotation_mode := "QUATERNION" }
  let cam_rot_orig := cam1.rotation_quaternion
  let cam_rot : BQuat :=
    { w := cam_rot_orig.x, x := cam_rot_orig.w
      y := cam_rot_orig.z, z := -cam_rot_orig.y }
  let qw := cam_rot.w
  let qx := cam_rot.x
  let qy := cam_rot.y
  let qz := cam_rot.z
  let cam2 := { cam1 with rotation_mode := rotation_mode_bk }
  let t := cam2.location
  let t1 := vecNeg (matVecMul (quatToMat cam_rot) t)
  let imageRec : Image :=
    { id := image_id, qvec := [qw, qx, qy, qz], tvec := [t1.x, t1.y, t1.z]
      camera_id := camera_id, name := filename, xys := [], point3D_ids := [] }
  { objAfter := cam2, camera := cameraRec, image := imageRec }

/-- The progress value yielded at the end of iteration `idx` (line 132):
`100.0 * idx / (len(scene_cameras) + 1)`. -/
def progressValue (n idx : ℕ) : ℚ :=
  100 * idx / (n + 1)

/-- Observable effects of one loop iteration (lines 124-132): make the
camera active, render, save the frame under `images/`, yield progress. -/
def cameraEffects (imagesDir : List String) (n idx : ℕ) (cam : SceneObject) :
    List Effect :=
  [Effect.setSceneCamera cam.name_full,
   Effect.renderFrame,
   Effect.saveRender (imagesDir ++ [cam.name_full ++ ".jpg"]),
   Effect.yieldProgress (progressValue n idx)]

/-- The per-camera loop results, in sorted order. -/
def exportSteps (scene : Scene) : List CamStep :=
  ((sortCameras (selectedCameras scene)).enum).map fun p =>
    processCamera scene.render p.1 p.2

/-- The `cameras` dict accumulated by the loop (insertion order,
keyed by `camera_id`). -/
def exportCameras (scene : Scene) : List (ℕ × Camera) :=
  (exportSteps scene).map fun s => (s.camera.id, s.camera)

/-- The `images` dict accumulated by the loop (insertion order,
keyed by `image_id`). -/
def exportImages (scene : Scene) : List (ℕ × Image) :=
  (exportSteps scene).map fun s => (s.image.id, s.image)

/-- Result of a run of `export_dataset`: whether the empty-selection
warning fired, the effect trace, the two accumulated dicts, and the
final states of the processed camera objects. -/
structure ExportResult where
  warned : Bool
  effects : List Effect
  cameras : List (ℕ × Camera)
  images : List (ℕ × Image)
  camerasAfter : List SceneObject
deriving DecidableEq

/-- `BlenderExporterForColmap.export_dataset(context, dirpath, format)`
(lines 45-138), with `DRY_RUN = False` as in the source.  An empty
selection prints a warning and returns before any filesystem access;
otherwise the output directory is created (`parents=True,
exist_ok=True`), each camera is processed in sorted order, and
`write_model` is called once, followed by the final `yield 100.0`. -/
def export_dataset (scene : Scene) (dirpath : List String) (format : String) :
    ExportResult :=
  let scene_cameras := selectedCameras scene
  if scene_cameras.isEmpty then
    { warned := true, effects := [], cameras := [], images := []
      camerasAfter := [] }
  else
    let output_format := if format = ".txt" ∨ format = ".bin" then format else ".txt"
    let _scale := scene.render.resolution_percentage / 100
    let output_dir := dirpath
    let images_dir := output_dir ++ ["images"]
    let n := scene_cameras.length
    let sortedCams := sortCameras scene_cameras
    let cameras := exportCameras scene
    let images := exportImages scene
    { warned := false
      effects :=
        Effect.mkdir output_dir true true ::
          (sortedCams.enum.map fun p => cameraEffects images_dir n p.1 p.2).flatten
          ++ [Effect.writeModel cameras images [] output_dir output_format,
              Effect.yieldProgress 100]
      cameras := cameras
      images := images
      camerasAfter := (exportSteps scene).map (·.objAfter) }

/-- Projection keeping only yielded progress values. -/
def yieldProj : Effect → Option ℚ
  | Effect.yieldProgress v => some v
  | _ => none

/-- Projection keeping render events (`none`) and yields (`some v`). -/
def renderYieldProj : Effect → Option (Option ℚ)
  | Effect.renderFrame => some none
  | Effect.yieldProgress v => some (some v)
  | _ => none

/-- Projection keeping directory-creation calls. -/
def mkdirProj : Effect → Option (List String × Bool × Bool)
  | Effect.mkdir p a b => some (p, a, b)
  | _ => none

/-- Projection keeping `write_model` calls: the `points3D` argument
and the format argument. -/
def writeModelProj : Effect → Option (List Point3D × String)
  | Effect.writeModel _ _ pts _ ext => some (pts, ext)
  | _ => none

/-- The progress values yielded by the generator, in trace order. -/
def yieldsOf (es : List Effect) : List ℚ :=
  es.filterMap yieldProj

/-- The trace restricted to render and yield events: `none` for a
render, `some v` for a yielded progress value `v`. -/
def renderYieldTrace (es : List Effect) : List (Option ℚ) :=
  es.filterMap renderYieldProj

/-- The directory-creation calls in the trace: path, `parents`,
`exist_ok`. -/
def mkdirCalls (es : List Effect) : List (List String × Bool × Bool) :=
  es.filterMap mkdirProj

/-- The `write_model` calls in the trace: the `points3D` argument and
the format argument. -/
def writeModelCalls (es : List Effect) : List (List Point3D × String) :=
  es.filterMap writeModelProj

/-- PoseConverter as the spec words it: intermediate quaternion with
scalar-first components `(x, w, z, -y)`, `qvec` read directly from it,
`tvec = -(matrix(R1) @ T)`. -/
def poseConvSpec (q : BQuat) (t : Vec3) : List ℚ × List ℚ :=
  let r1 : BQuat := { w := q.x, x := q.w, y := q.z, z := -q.y }
  let t1 := vecNeg (matVecMul (quatToMat r1) t)
  ([r1.w, r1.x, r1.y, r1.z], [t1.x, t1.y, t1.z])

/-! ### Concrete scenes used for witnesses and counterexamples -/

/-- The identity quaternion. -/
def qIdent : BQuat := { w := 1, x := 0, y := 0, z := 0 }

/-- Camera "A" of the spec's Scenario A: focal 35mm, sensor 36x24mm,
member of collection `"colmap_set1"`. -/
def camA : SceneObject :=
  { type := "CAMERA", name_full := "A", users_collection := ["colmap_set1"]
    rotation_mode := "QUATERNION", rotation_quaternion := qIdent
    location := { x := 0, y := 0, z := 0 }
    data := { lens := 35, sensor_width := 36, sensor_height := 24 } }

/-- Camera "B" of the spec's Scenario A. -/
def camB : SceneObject := { camA with name_full := "B" }

/-- The scene of the spec's Scenario A: cameras "A" and "B", render
resolution 800x600. -/
def sceneAB : Scene :=
  { objects := [camA, camB]
    render := { resolution_x := 800, resolution_y := 600
                resolution_percentage := 100 } }

/-- A scene whose single camera is in no `"colmap_"`-prefixed
collection (the spec's Scenario B). -/
def sceneNone : Scene :=
  { objects := [{ camA with users_collection := ["props"] }]
    render := sceneAB.render }

/-! ### Basic lemmas about the embedding -/

theorem processCamera_camera_id (r : RenderSettings) (i : ℕ) (c : SceneObject) :
    (processCamera r i c).camera.id = i + 1 := rfl

theorem processCamera_image_id (r : RenderSettings) (i : ℕ) (c : SceneObject) :
    (processCamera r i c).image.id = i + 1 := rfl

theorem processCamera_image_camera_id (r : RenderSettings) (i : ℕ) (c : SceneObject) :
    (processCamera r i c).image.camera_id = i + 1 := rfl

theorem processCamera_image_name (r : RenderSettings) (i : ℕ) (c : SceneObject) :
    (processCamera r i c).image.name = c.name_full ++ ".jpg" := rfl

theorem sortCameras_perm (l : List SceneObject) : (sortCameras l).Perm l :=
  List.perm_insertionSort camLE l

theorem length_sortCameras (l : List SceneObject) :
    (sortCameras l).length = l.length :=
  (sortCameras_perm l).length_eq

theorem sorted_sortCameras (l : List SceneObject) :
    List.Pairwise camLE (sortCameras l) :=
  List.sorted_insertionSort camLE l

theorem enum_map_fst_apply {α β : Type _} (l : List α) (g : ℕ → β) :
    l.enum.map (fun p => g p.1) = (List.range l.length).map g := by
  rw [← List.enum_map_fst l, List.map_map]
  rfl

theorem enum_map_snd_apply {α β : Type _} (l : List α) (g : α → β) :
    l.enum.map (fun p => g p.2) = l.map g := by
  have h1 : l.enum.map (fun p => g p.2) = (l.enum.map Prod.snd).map g := by
    rw [List.map_map]
    rfl
  rw [h1, List.enum_map_snd]

theorem range_map_succ (n : ℕ) :
    (List.range n).map (fun i => i + 1) = List.range' 1 n := by
  rw [List.range'_eq_map_range]
  exact List.map_congr_left fun a _ => Nat.add_comm a 1

theorem filterMap_flatten_blocks {α β : Type _} (f : Effect → Option β)
    (g : α → List Effect) (k : α → List β)
    (hg : ∀ a, (g a).filterMap f = k a) (l : List α) :
    ((l.map g).flatten).filterMap f = (l.map k).flatten := by
  induction l with
  | nil => rfl
  | cons a t ih => simp only [List.map_cons, List.flatten_cons,
      List.filterMap_append, hg, ih]

theorem flatten_map_nil {α β : Type _} (l : List α) :
    (l.map fun _ => ([] : List β)).flatten = [] := by
  induction l with
  | nil => rfl
  | cons a t ih => simp [ih]

theorem flatten_map_singleton {α β : Type _} (l : List α) (k : α → β) :
    (l.map fun a => [k a]).flatten = l.map k := by
  induction l with
  | nil => rfl
  | cons a t ih => simp [ih]

/-- The non-empty-selection branch of `export_dataset`, written out. -/
theorem export_dataset_of_ne (scene : Scene) (dirpath : List String)
    (format : String) (h : selectedCameras scene ≠ []) :
    export_dataset scene dirpath format =
      { warned := false
        effects :=
          Effect.mkdir dirpath true true ::
            ((sortCameras (selectedCameras scene)).enum.map fun p =>
              cameraEffects (dirpath ++ ["images"])
                (selectedCameras scene).length p.1 p.2).flatten
            ++ [Effect.writeModel (exportCameras scene) (exportImages scene)
                  [] dirpath
                  (if format = ".txt" ∨ format = ".bin" then format else ".txt"),
                Effect.yieldProgress 100]
        cameras := exportCameras scene
        images := exportImages scene
        camerasAfter := (exportSteps scene).map (·.objAfter) } := by
  have h' : (selectedCameras scene).isEmpty = false :=
    List.isEmpty_eq_false.mpr h
  simp only [export_dataset, h', Bool.false_eq_true, if_false]

/-- Per-iteration traces of the four projections. -/
theorem yieldsOf_cameraEffects (d : List String) (n i : ℕ) (c : SceneObject) :
    yieldsOf (cameraEffects d n i c) = [progressValue n i] := rfl

theorem renderYieldTrace_cameraEffects (d : List String) (n i : ℕ)
    (c : SceneObject) :
    renderYieldTrace (cameraEffects d n i c)
      = [none, some (progressValue n i)] := rfl

theorem mkdirCalls_cameraEffects (d : List String) (n i : ℕ) (c : SceneObject) :
    mkdirCalls (cameraEffects d n i c) = [] := rfl

theorem writeModelCalls_cameraEffects (d : List String) (n i : ℕ)
    (c : SceneObject) :
    writeModelCalls (cameraEffects d n i c) = [] := rfl

/-- The yielded progress values of a non-empty run: one per camera,
then the final `100`. -/
theorem yieldsOf_export (scene : Scene) (dirpath : List String)
    (format : String) (h : selectedCameras scene ≠ []) :
    yieldsOf (export_dataset scene dirpath format).effects
      = ((List.range (selectedCameras scene).length).map
          (progressValue (selectedCameras scene).length)) ++ [100] := by
  rw [export_dataset_of_ne scene dirpath format h]
  show yieldsOf (Effect.mkdir dirpath true true :: (_ ++ _)) = _
  unfold yieldsOf
  rw [List.filterMap_cons]
  simp only [yieldProj]
  rw [List.filterMap_append]
  rw [filterMap_flatten_blocks yieldProj
      (fun p : ℕ × SceneObject => cameraEffects (dirpath ++ ["images"])
        (selectedCameras scene).length p.1 p.2)
      (fun p : ℕ × SceneObject =>
        [progressValue (selectedCameras scene).length p.1])
      (fun p => rfl)]
  rw [flatten_map_singleton]
  rw [enum_map_fst_apply (sortCameras (selectedCameras scene))
      (progressValue (selectedCameras scene).length)]
  rw [length_sortCameras]
  rfl

/-- The render/yield skeleton of a non-empty run: for each camera a
render followed by exactly one yielded value, then the final `100`. -/
theorem renderYieldTrace_export (scene : Scene) (dirpath : List String)
    (format : String) (h : selectedCameras scene ≠ []) :
    renderYieldTrace (export_dataset scene dirpath format).effects
      = ((List.range (selectedCameras scene).length).map fun i =>
          [none, some (progressValue (selectedCameras scene).length i)]).flatten
        ++ [some 100] := by
  rw [export_dataset_of_ne scene dirpath format h]
  show renderYieldTrace (Effect.mkdir dirpath true true :: (_ ++ _)) = _
  unfold renderYieldTrace
  rw [List.filterMap_cons]
  simp only [renderYieldProj]
  rw [List.filterMap_append]
  rw [filterMap_flatten_blocks renderYieldProj
      (fun p : ℕ × SceneObject => cameraEffects (dirpath ++ ["images"])
        (selectedCameras scene).length p.1 p.2)
      (fun p : ℕ × SceneObject =>
        [none, some (progressValue (selectedCameras scene).length p.1)])
      (fun p => rfl)]
  rw [enum_map_fst_apply (sortCameras (selectedCameras scene))
      (fun i => [none, some (progressValue (selectedCameras scene).length i)])]
  rw [length_sortCameras]
  rfl

/-- The directory-creation calls of a non-empty run: exactly one, for
the output directory, with `parents=True, exist_ok=True`. -/
theorem mkdirCalls_export (scene : Scene) (dirpath : List String)
    (format : String) (h : selectedCameras scene ≠ []) :
    mkdirCalls (export_dataset scene dirpath format).effects
      = [(dirpath, true, true)] := by
  rw [export_dataset_of_ne scene dirpath format h]
  show mkdirCalls (Effect.mkdir dirpath true true :: (_ ++ _)) = _
  unfold mkdirCalls
  rw [List.filterMap_cons]
  simp only [mkdirProj]
  rw [List.filterMap_append]
  rw [filterMap_flatten_blocks mkdirProj
      (fun p : ℕ × SceneObject => cameraEffects (dirpath ++ ["images"])
        (selectedCameras scene).length p.1 p.2)
      (fun _ => []) (fun p => rfl)]
  rw [flatten_map_nil]
  rfl

/-- The `write_model` calls of a non-empty run: exactly one, with an
empty `points3D` argument and the sanitized format. -/
theorem writeModelCalls_export (scene : Scene) (dirpath : List String)
    (format : String) (h : selectedCameras scene ≠ []) :
    writeModelCalls (export_dataset scene dirpath format).effects
      = [([], if format = ".txt" ∨ format = ".bin" then format else ".txt")] := by
  rw [export_dataset_of_ne scene dirpath format h]
  show writeModelCalls (Effect.mkdir dirpath true true :: (_ ++ _)) = _
  unfold writeModelCalls
  rw [List.filterMap_cons]
  simp only [writeModelProj]
  rw [List.filterMap_append]
  rw [filterMap_flatten_blocks writeModelProj
      (fun p : ℕ × SceneObject => cameraEffects (dirpath ++ ["images"])
        (selectedCameras scene).length p.1 p.2)
      (fun _ => []) (fun p => rfl)]
  rw [flatten_map_nil]
  rfl

/-- `100 * i / (n + 1)` is strictly increasing in `i`. -/
theorem progressValue_lt (n : ℕ) {i j : ℕ} (hij : i < j) :
    progressValue n i < progressValue n j := by
  unfold progressValue
  have hn : (0 : ℚ) < (n : ℚ) + 1 := by positivity
  rw [div_lt_div_iff_of_pos_right hn]
  have hij' : (i : ℚ) < (j : ℚ) := by exact_mod_cast hij
  linarith

/-- `100 * i / (n + 1) < 100` whenever `i < n`. -/
theorem progressValue_lt_100 (n : ℕ) {i : ℕ} (hi : i < n) :
    progressValue n i < 100 := by
  unfold progressValue
  have hn : (0 : ℚ) < (n : ℚ) + 1 := by positivity
  rw [div_lt_iff₀ hn]
  have hi' : (i : ℚ) < (n : ℚ) + 1 := by
    exact_mod_cast Nat.lt_succ_of_lt hi
  nlinarith

/-- The yields of the camera loop alone: one value per camera. -/
theorem yieldsOf_loop (d : List String) (n : ℕ) (l : List SceneObject) :
    yieldsOf ((l.enum.map fun p : ℕ × SceneObject =>
        cameraEffects d n p.1 p.2).flatten)
      = (List.range l.length).map (progressValue n) := by
  unfold yieldsOf
  rw [filterMap_flatten_blocks yieldProj
      (fun p : ℕ × SceneObject => cameraEffects d n p.1 p.2)
      (fun p : ℕ × SceneObject => [progressValue n p.1]) (fun p => rfl)]
  rw [flatten_map_singleton]
  exact enum_map_fst_apply l (progressValue n)

/-- The yielded sequence is strictly increasing. -/
theorem yields_pairwise (n : ℕ) :
    List.Pairwise (· < ·)
      (((List.range n).map (progressValue n)) ++ [(100 : ℚ)]) := by
  rw [List.pairwise_append]
  refine ⟨?_, List.pairwise_singleton _ _, ?_⟩
  · rw [List.pairwise_map]
    exact (List.pairwise_lt_range n).imp fun hab => progressValue_lt n hab
  · intro a ha b hb
    rw [List.mem_singleton] at hb
    subst hb
    obtain ⟨i, hi, rfl⟩ := List.mem_map.mp ha
    exact progressValue_lt_100 n (List.mem_range.mp hi)

/-- The dict-key/id projections of the accumulated `cameras` dict. -/
theorem exportCameras_map_id (scene : Scene) :
    (exportCameras scene).map (fun p => p.2.id)
      = List.range' 1 (selectedCameras scene).length := by
  simp only [exportCameras, exportSteps, List.map_map]
  have h1 := enum_map_fst_apply (sortCameras (selectedCameras scene))
    (fun i => i + 1)
  rw [length_sortCameras] at h1
  exact h1.trans (range_map_succ _)

/-- The ids of the accumulated `images` dict. -/
theorem exportImages_map_id (scene : Scene) :
    (exportImages scene).map (fun p => p.2.id)
      = List.range' 1 (selectedCameras scene).length := by
  simp only [exportImages, exportSteps, List.map_map]
  have h1 := enum_map_fst_apply (sortCameras (selectedCameras scene))
    (fun i => i + 1)
  rw [length_sortCameras] at h1
  exact h1.trans (range_map_succ _)

/-- The camera foreign keys of the accumulated `images` dict. -/
theorem exportImages_map_camera_id (scene : Scene) :
    (exportImages scene).map (fun p => p.2.camera_id)
      = List.range' 1 (selectedCameras scene).length := by
  simp only [exportImages, exportSteps, List.map_map]
  have h1 := enum_map_fst_apply (sortCameras (selectedCameras scene))
    (fun i => i + 1)
  rw [length_sortCameras] at h1
  exact h1.trans (range_map_succ _)

/-- The image names, in storage order, are the sort keys of the sorted
camera list. -/
theorem exportImages_map_name (scene : Scene) :
    (exportImages scene).map (fun p => p.2.name)
      = (sortCameras (selectedCameras scene)).map sortKey := by
  simp only [exportImages, exportSteps, List.map_map]
  exact enum_map_snd_apply (sortCameras (selectedCameras scene)) sortKey

/-! ### The claims -/

/-- C1: for every camera with host rotation quaternion components
`(x, y, z, w)` and world position `T`, the pose stored in the `Image`
record is exactly what the spec's PoseConverter prescribes: the
intermediate quaternion with scalar-first components `(x, w, z, -y)`,
`qvec` read directly from it, and `tvec = -(matrix(R1) @ T)`. -/
theorem c1_pose_conversion (render : RenderSettings) (idx : ℕ)
    (cam : SceneObject) :
    ((processCamera render idx cam).image.qvec,
      (processCamera render idx cam).image.tvec)
      = poseConvSpec cam.rotation_quaternion cam.location := rfl

/-- C2: for every camera with strictly positive focal length, sensor
dimensions and resolution, the `Camera` record carries the model
`"OPENCV"`, the render width and height, and the 8-value parameter
vector `[fx, fy, cx, cy, 0, 0, 0, 0]` with
`fx = lens * width / sensor_width`, `fy = lens * height / sensor_height`,
`cx = width / 2`, `cy = height / 2`. -/
theorem c2_intrinsics (render : RenderSettings) (idx : ℕ) (cam : SceneObject)
    (hf : 0 < cam.data.lens) (hsw : 0 < cam.data.sensor_width)
    (hsh : 0 < cam.data.sensor_height) (hw : 0 < render.resolution_x)
    (hh : 0 < render.resolution_y) :
    (processCamera render idx cam).camera =
      { id := idx + 1, model := "OPENCV"
        width := render.resolution_x, height := render.resolution_y
        params := [cam.data.lens * render.resolution_x / cam.data.sensor_width,
                   cam.data.lens * render.resolution_y / cam.data.sensor_height,
                   (render.resolution_x : ℚ) / 2, (render.resolution_y : ℚ) / 2,
                   0, 0, 0, 0] } := rfl

/-- Witness for C2 at the concrete camera `camA` (35mm lens, 36x24mm
sensor) and 800x600 resolution. -/
theorem c2_witness :
    (0 : ℚ) < camA.data.lens ∧ (0 : ℚ) < camA.data.sensor_width
    ∧ (0 : ℚ) < camA.data.sensor_height
    ∧ 0 < sceneAB.render.resolution_x ∧ 0 < sceneAB.render.resolution_y
    ∧ (processCamera sceneAB.render 0 camA).camera =
      { id := 0 + 1, model := "OPENCV"
        width := sceneAB.render.resolution_x
        height := sceneAB.render.resolution_y
        params := [camA.data.lens * sceneAB.render.resolution_x /
                     camA.data.sensor_width,
                   camA.data.lens * sceneAB.render.resolution_y /
                     camA.data.sensor_height,
                   (sceneAB.render.resolution_x : ℚ) / 2,
                   (sceneAB.render.resolution_y : ℚ) / 2, 0, 0, 0, 0] } :=
  ⟨by decide, by decide, by decide, by decide, by decide,
    c2_intrinsics sceneAB.render 0 camA (by decide) (by decide) (by decide)
      (by decide) (by decide)⟩

/-- C3 is false as stated: in Scenario A (800x600, focal 35mm, sensor
36x24mm) the exported params have `fx = 7000/9 ≈ 777.78` but
`fy = 875`, so `fx = fy` fails. -/
theorem c3_counterexample :
    ((export_dataset sceneAB ["out"] ".txt").cameras.map
        fun p => p.2.params.take 2)
      = [[7000 / 9, 875], [7000 / 9, 875]]
    ∧ (7000 / 9 : ℚ) ≠ 875 := by
  constructor
  · have h : ((export_dataset sceneAB ["out"] ".txt").cameras.map
        fun p => p.2.params.take 2)
        = [[(35 : ℚ) * 800 / 36, (35 : ℚ) * 600 / 24],
           [(35 : ℚ) * 800 / 36, (35 : ℚ) * 600 / 24]] := rfl
    rw [h]
    norm_num
  · norm_num

/-- C3 amended: in Scenario A the exported `Camera` params are
`[fx, fy, cx, cy, 0, 0, 0, 0]` with `fx = 7000/9 ≈ 777.78`,
`fy = 875`, `cx = 400`, `cy = 300` (both cameras), and the `Image`
ids are `1, 2` assigned in the name order `A.jpg, B.jpg`. -/
theorem c3_amended :
    ((export_dataset sceneAB ["out"] ".txt").cameras.map
        fun p => (p.1, p.2.params))
      = [(1, [7000 / 9, 875, 400, 300, 0, 0, 0, 0]),
         (2, [7000 / 9, 875, 400, 300, 0, 0, 0, 0])]
    ∧ ((export_dataset sceneAB ["out"] ".txt").images.map
        fun p => (p.1, p.2.id, p.2.name))
      = [(1, 1, "A.jpg"), (2, 2, "B.jpg")]
    ∧ |(7000 / 9 : ℚ) - 777.78| < 1 / 100 := by
  refine ⟨?_, rfl, by rw [abs_lt]; constructor <;> norm_num⟩
  have h : ((export_dataset sceneAB ["out"] ".txt").cameras.map
      fun p => (p.1, p.2.params))
      = [(1, [(35 : ℚ) * 800 / 36, (35 : ℚ) * 600 / 24,
              (800 : ℚ) / 2, (600 : ℚ) / 2, 0, 0, 0, 0]),
         (2, [(35 : ℚ) * 800 / 36, (35 : ℚ) * 600 / 24,
              (800 : ℚ) / 2, (600 : ℚ) / 2, 0, 0, 0, 0])] := rfl
  rw [h]
  norm_num

/-- C4: for every non-empty selection the export assigns `Camera` ids,
`Image` ids and `Image.camera_id` exactly `1..N` in storage order, and
the image names are the selected cameras' names with `".jpg"` appended,
in sorted (code-point ascending) order. -/
theorem c4_id_assignment (scene : Scene) (dirpath : List String)
    (format : String) (h : selectedCameras scene ≠ []) :
    ((export_dataset scene dirpath format).cameras.map fun p => p.2.id)
        = List.range' 1 (selectedCameras scene).length
    ∧ ((export_dataset scene dirpath format).images.map fun p => p.2.id)
        = List.range' 1 (selectedCameras scene).length
    ∧ ((export_dataset scene dirpath format).images.map fun p => p.2.camera_id)
        = List.range' 1 (selectedCameras scene).length
    ∧ ((export_dataset scene dirpath format).images.map
        fun p => p.2.name).Perm ((selectedCameras scene).map sortKey)
    ∧ List.Pairwise (fun a b : String => a.data ≤ b.data)
        ((export_dataset scene dirpath format).images.map fun p => p.2.name) := by
  rw [export_dataset_of_ne scene dirpath format h]
  refine ⟨exportCameras_map_id scene, exportImages_map_id scene,
    exportImages_map_camera_id scene, ?_, ?_⟩
  · show ((exportImages scene).map fun p => p.2.name).Perm _
    rw [exportImages_map_name scene]
    exact (sortCameras_perm (selectedCameras scene)).map sortKey
  · show List.Pairwise _ ((exportImages scene).map fun p => p.2.name)
    rw [exportImages_map_name scene, List.pairwise_map]
    exact sorted_sortCameras (selectedCameras scene)

/-- Witness for C4 at the concrete two-camera scene `sceneAB`. -/
theorem c4_witness :
    selectedCameras sceneAB ≠ [] ∧
    (((export_dataset sceneAB ["out"] ".txt").cameras.map fun p => p.2.id)
        = List.range' 1 (selectedCameras sceneAB).length
    ∧ ((export_dataset sceneAB ["out"] ".txt").images.map fun p => p.2.id)
        = List.range' 1 (selectedCameras sceneAB).length
    ∧ ((export_dataset sceneAB ["out"] ".txt").images.map
        fun p => p.2.camera_id)
        = List.range' 1 (selectedCameras sceneAB).length
    ∧ ((export_dataset sceneAB ["out"] ".txt").images.map
        fun p => p.2.name).Perm ((selectedCameras sceneAB).map sortKey)
    ∧ List.Pairwise (fun a b : String => a.data ≤ b.data)
        ((export_dataset sceneAB ["out"] ".txt").images.map
          fun p => p.2.name)) :=
  ⟨by decide, c4_id_assignment sceneAB ["out"] ".txt" (by decide)⟩

/-- C5: a camera object of the scene is selected iff at least one of
its collections has the `"colmap_"` name prefix; and an empty selection
makes the export warn and produce no effect at all (no directory
created, no file written). -/
theorem c5_selection (scene : Scene) (dirpath : List String)
    (format : String) :
    (∀ obj ∈ scene.objects, obj.type = "CAMERA" →
      (obj ∈ selectedCameras scene ↔
        ∃ c ∈ obj.users_collection, strStartsWith c "colmap_" = true))
    ∧ (selectedCameras scene = [] →
        (export_dataset scene dirpath format).warned = true
        ∧ (export_dataset scene dirpath format).effects = []) := by
  constructor
  · intro obj hmem htype
    simp [selectedCameras, List.mem_filter, hmem, htype, List.any_eq_true]
  · intro hempty
    have h' : (selectedCameras scene).isEmpty = true :=
      List.isEmpty_iff.mpr hempty
    constructor <;> simp [export_dataset, h']

/-- Witness for C5 at the concrete scene `sceneNone`, whose only camera
is in no `"colmap_"` collection. -/
theorem c5_witness :
    (export_dataset sceneNone ["out"] ".txt").warned = true
    ∧ (export_dataset sceneNone ["out"] ".txt").effects = [] :=
  (c5_selection sceneNone ["out"] ".txt").2 (by decide)

/-- C6 is false as stated: at the concrete scene `sceneAB` the only
directory-creation call is for the output directory itself; no call
ever creates the `images/` subdirectory. -/
theorem c6_counterexample :
    mkdirCalls (export_dataset sceneAB ["out"] ".txt").effects
      = [(["out"], true, true)]
    ∧ ["out", "images"] ∉
        (mkdirCalls (export_dataset sceneAB ["out"] ".txt").effects).map
          (fun c => c.1) := by decide

/-- C6 amended: for every run with a non-empty selection the exporter
creates the output directory (with `parents=True, exist_ok=True`, so an
existing directory is not an error) and performs no other
directory-creation call; in particular it does not itself create the
`images/` subdirectory. -/
theorem c6_amended (scene : Scene) (dirpath : List String) (format : String)
    (h : selectedCameras scene ≠ []) :
    mkdirCalls (export_dataset scene dirpath format).effects
      = [(dirpath, true, true)] :=
  mkdirCalls_export scene dirpath format h

/-- Witness for the amended C6 at the concrete scene `sceneAB`. -/
theorem c6_witness :
    mkdirCalls (export_dataset sceneAB ["outdir"] ".bin").effects
      = [(["outdir"], true, true)] :=
  c6_amended sceneAB ["outdir"] ".bin" (by decide)

/-- C7: in every non-empty run the render/yield trace shows exactly one
yielded value after each camera's render plus the final `100`, the
yielded sequence is strictly increasing, and `100` is yielded only
after the `write_model` call (never before it). -/
theorem c7_progress (scene : Scene) (dirpath : List String) (format : String)
    (h : selectedCameras scene ≠ []) :
    renderYieldTrace (export_dataset scene dirpath format).effects
      = ((List.range (selectedCameras scene).length).map fun i =>
          [none, some (progressValue (selectedCameras scene).length i)]).flatten
        ++ [some 100]
    ∧ List.Chain' (· < ·) (yieldsOf (export_dataset scene dirpath format).effects)
    ∧ ∃ pre cams ims pts ext,
        (export_dataset scene dirpath format).effects
          = pre ++ [Effect.writeModel cams ims pts dirpath ext,
                    Effect.yieldProgress 100]
        ∧ (100 : ℚ) ∉ yieldsOf pre := by
  refine ⟨renderYieldTrace_export scene dirpath format h, ?_, ?_⟩
  · rw [yieldsOf_export scene dirpath format h]
    exact (yields_pairwise _).chain'
  · refine ⟨Effect.mkdir dirpath true true ::
        ((sortCameras (selectedCameras scene)).enum.map
          fun p : ℕ × SceneObject => cameraEffects (dirpath ++ ["images"])
            (selectedCameras scene).length p.1 p.2).flatten,
      exportCameras scene, exportImages scene, [],
      (if format = ".txt" ∨ format = ".bin" then format else ".txt"),
      ?_, ?_⟩
    · rw [export_dataset_of_ne scene dirpath format h]
    · rw [show yieldsOf (Effect.mkdir dirpath true true ::
          ((sortCameras (selectedCameras scene)).enum.map
            fun p : ℕ × SceneObject => cameraEffects (dirpath ++ ["images"])
              (selectedCameras scene).length p.1 p.2).flatten)
          = yieldsOf (((sortCameras (selectedCameras scene)).enum.map
            fun p : ℕ × SceneObject => cameraEffects (dirpath ++ ["images"])
              (selectedCameras scene).length p.1 p.2).flatten) from rfl]
      rw [yieldsOf_loop, length_sortCameras]
      intro hmem
      obtain ⟨i, hi, hval⟩ := List.mem_map.mp hmem
      exact absurd hval
        (ne_of_lt (progressValue_lt_100 _ (List.mem_range.mp hi)))

/-- Witness for C7 at the concrete scene `sceneAB`. -/
theorem c7_witness :
    selectedCameras sceneAB ≠ [] ∧
    (renderYieldTrace (export_dataset sceneAB ["out"] ".txt").effects
      = ((List.range (selectedCameras sceneAB).length).map fun i =>
          [none,
           some (progressValue (selectedCameras sceneAB).length i)]).flatten
        ++ [some 100]
    ∧ List.Chain' (· < ·)
        (yieldsOf (export_dataset sceneAB ["out"] ".txt").effects)
    ∧ ∃ pre cams ims pts ext,
        (export_dataset sceneAB ["out"] ".txt").effects
          = pre ++ [Effect.writeModel cams ims pts ["out"] ext,
                    Effect.yieldProgress 100]
        ∧ (100 : ℚ) ∉ yieldsOf pre) :=
  ⟨by decide, c7_progress sceneAB ["out"] ".txt" (by decide)⟩

/-- C8: in every non-empty run `write_model` is called exactly once,
with an empty `Point3D` mapping and the requested format when it is
exactly `".txt"` or `".bin"`, and `".txt"` for any other string. -/
theorem c8_write_once (scene : Scene) (dirpath : List String)
    (format : String) (h : selectedCameras scene ≠ []) :
    writeModelCalls (export_dataset scene dirpath format).effects
      = [([], if format = ".txt" ∨ format = ".bin" then format else ".txt")] :=
  writeModelCalls_export scene dirpath format h

/-- Witness for C8 at the concrete scene `sceneAB` with an unrecognized
format string. -/
theorem c8_witness :
    selectedCameras sceneAB ≠ [] ∧
    writeModelCalls (export_dataset sceneAB ["out"] ".foo").effects
      = [([], if ".foo" = ".txt" ∨ ".foo" = ".bin" then ".foo" else ".txt")] :=
  ⟨by decide, c8_write_once sceneAB ["out"] ".foo" (by decide)⟩

/-- C9: a completed per-camera iteration restores the saved rotation
mode, so the camera object's `rotation_mode` after its pose has been
extracted equals the value it had before. -/
theorem c9_rotation_mode_restored (render : RenderSettings) (idx : ℕ)
    (cam : SceneObject) :
    ((processCamera render idx cam).objAfter).rotation_mode
      = cam.rotation_mode := rfl

/-- C10: the render `resolution_percentage` is read but has no influence
on the exported model: changing it changes neither the `Camera` nor the
`Image` records. -/
theorem c10_percentage_irrelevant (scene : Scene) (p : ℚ)
    (dirpath : List String) (format : String) :
    (export_dataset
        { scene with render := { scene.render with resolution_percentage := p } }
        dirpath format).cameras
      = (export_dataset scene dirpath format).cameras
    ∧ (export_dataset
        { scene with render := { scene.render with resolution_percentage := p } }
        dirpath format).images
      = (export_dataset scene dirpath format).images :=
  ⟨rfl, rfl⟩

end BlenderColmap
